import Mathlib

/-!
# Shallow embedding of the shopping-cart logic of `login-page-supabase`

This file embeds the cart/pricing logic of the repository:

* `src/context/CartContext.tsx` — the cart store (`addToCart`, `removeFromCart`,
  `updateQuantity`, `clearCart`) and the derived aggregates (`cartCount`, `total`
  recomputed in a `useEffect` whenever `items` changes);
* `src/components/Cart.tsx` — the parallel cart view with its own
  `getItemPrice` / `calculateSubtotal` / `updateQuantity`;
* `src/components/Products.tsx` and `src/pages/ProductDetails.tsx` — the
  (identical) `calculateDiscount` helper.

JavaScript numbers are modelled as `ℚ` for prices and `ℤ` for identifiers and
quantities (all quantities manipulated by the code are integers).  A value that
may be `undefined`/`null` is an `Option`.  The remote Supabase collaborator is
modelled by an explicit environment `RemoteEnv` recording whether the user is
signed in, the outcome of each kind of remote call, and the row id the insert
returns; each operation returns the new local `items` state, the error it
throws (if any), and how many remote *write* calls it attempted.
-/

/-- Product row as selected by the cart queries
(`id, name, price, discount_price, image_url, stock_quantity`). -/
structure Product where
  id : ℤ
  name : String
  price : ℚ
  discount_price : Option ℚ
  image_url : String
  stock_quantity : ℤ
deriving DecidableEq, Repr

namespace CartContext

/-- `CartItem` of `CartContext.tsx`.  The declared TypeScript type has a
non-optional `product`, but the runtime value can be missing (the `total`
computation guards with `if (!item.product) return sum`), so it is an
`Option` here. -/
structure CartItem where
  id : ℤ
  product_id : ℤ
  quantity : ℤ
  product : Option Product
deriving DecidableEq, Repr

/-- Errors thrown by the cart-store operations: `notFound` is the
`new Error('Product not found')` path of `addToCart`; `network` is any failed
remote write re-thrown from a `catch` block. -/
inductive CartError
  | notFound
  | network
deriving DecidableEq, Repr

/-- Result of one cart-store operation: the local `items` state after the call,
the error the operation throws (or `none`), and the number of remote write
calls it attempted. -/
structure OpResult where
  items : List CartItem
  error : Option CartError
  remoteWrites : ℕ
deriving Repr

/-- The remote collaborator and session, made explicit: whether a user is
signed in, the product-table lookup, whether each kind of remote write
succeeds, and the `id` of the row a successful insert returns. -/
structure RemoteEnv where
  userPresent : Bool
  fetchProduct : ℤ → Option Product
  insertOk : Bool
  updateOk : Bool
  deleteOk : Bool
  newRowId : ℤ

/-- `updateQuantity` of `CartContext.tsx` (lines 166–189):
`if (!user || quantity < 1) return;` then a remote update; on failure the error
is re-thrown and local state is untouched; on success the matching item's
quantity is replaced. -/
def updateQuantity (env : RemoteEnv) (items : List CartItem)
    (productId quantity : ℤ) : OpResult :=
  if env.userPresent = false ∨ quantity < 1 then ⟨items, none, 0⟩
  else if env.updateOk then
    ⟨items.map fun item =>
        if item.product_id = productId then { item with quantity := quantity } else item,
      none, 1⟩
  else ⟨items, some .network, 1⟩

/-- `addToCart` of `CartContext.tsx` (lines 95–145): no-op when signed out;
if a line for `productId` exists, delegate to `updateQuantity` with the summed
quantity; otherwise fetch the product (throwing `notFound` when absent), insert
the row remotely, and on success append the new item locally. -/
def addToCart (env : RemoteEnv) (items : List CartItem)
    (productId quantity : ℤ) : OpResult :=
  if env.userPresent = false then ⟨items, none, 0⟩
  else
    match items.find? (fun item => item.product_id == productId) with
    | some existingItem =>
        updateQuantity env items productId (existingItem.quantity + quantity)
    | none =>
        match env.fetchProduct productId with
        | none => ⟨items, some .notFound, 0⟩
        | some productData =>
            if env.insertOk then
              ⟨items ++ [{ id := env.newRowId, product_id := productId,
                           quantity := quantity, product := some productData }],
                none, 1⟩
            else ⟨items, some .network, 1⟩

/-- `removeFromCart` of `CartContext.tsx` (lines 147–164): remote delete keyed
on `product_id`; on success the matching items are filtered out locally; on
failure the error is re-thrown and local state is untouched. -/
def removeFromCart (env : RemoteEnv) (items : List CartItem)
    (productId : ℤ) : OpResult :=
  if env.userPresent = false then ⟨items, none, 0⟩
  else if env.deleteOk then
    ⟨items.filter (fun item => item.product_id != productId), none, 1⟩
  else ⟨items, some .network, 1⟩

/-- `clearCart` of `CartContext.tsx` (lines 191–207): remote delete of all the
user's rows, then `setItems([])`; on failure local state is untouched. -/
def clearCart (env : RemoteEnv) (items : List CartItem) : OpResult :=
  if env.userPresent = false then ⟨items, none, 0⟩
  else if env.deleteOk then ⟨[], none, 1⟩
  else ⟨items, some .network, 1⟩

/-- The effective unit price of the `total` recomputation
(`CartContext.tsx` lines 54–56): the discount price when it is neither
`undefined` nor `null`, else the list price. -/
def effectivePrice (p : Product) : ℚ :=
  match p.discount_price with
  | some d => d
  | none => p.price

/-- The `cartCount` recomputation (`CartContext.tsx` line 49):
`items.reduce((sum, item) => sum + item.quantity, 0)`. -/
def cartCountOf (items : List CartItem) : ℤ :=
  items.foldl (fun sum item => sum + item.quantity) 0

/-- The `total` recomputation (`CartContext.tsx` lines 52–58): lines with a
missing product snapshot contribute nothing; the others contribute
effective price × quantity. -/
def totalOf (items : List CartItem) : ℚ :=
  items.foldl
    (fun sum item =>
      match item.product with
      | none => sum
      | some p => sum + effectivePrice p * (item.quantity : ℚ))
    0

end CartContext

namespace Cart

/-- `CartItem` of `Cart.tsx` (lines 10–24); here `product` is non-optional,
matching both the declared interface and the code, which dereferences
`item.product` without a guard. -/
structure CartItem where
  id : ℤ
  user_id : String
  product_id : ℤ
  quantity : ℤ
  created_at : String
  product : Product
deriving DecidableEq, Repr

/-- `getItemPrice` of `Cart.tsx` (lines 118–120):
`item.product.discount_price || item.product.price`.  JavaScript truthiness
makes a discount of `0` (as well as `null`/`undefined`) fall back to the list
price. -/
def getItemPrice (item : CartItem) : ℚ :=
  match item.product.discount_price with
  | some d => if d = 0 then item.product.price else d
  | none => item.product.price

/-- The per-line total displayed by `Cart.tsx` (line 250):
`getItemPrice(item) * item.quantity`. -/
def lineTotal (item : CartItem) : ℚ :=
  getItemPrice item * (item.quantity : ℚ)

/-- `calculateSubtotal` of `Cart.tsx` (lines 122–127). -/
def calculateSubtotal (cartItems : List CartItem) : ℚ :=
  cartItems.foldl (fun total item => total + getItemPrice item * (item.quantity : ℚ)) 0

/-- Result of `Cart.tsx`'s `updateQuantity`: the component sets an error
message in state instead of throwing. -/
structure ViewResult where
  items : List CartItem
  errorMsg : Option String
  remoteWrites : ℕ
deriving DecidableEq, Repr

/-- `updateQuantity` of `Cart.tsx` (lines 66–93): `if (newQuantity < 1) return;`
then a remote update keyed on the row `id`; on failure an error message is set
and local state is untouched; on success the matching item's quantity is
replaced. -/
def updateQuantity (updateOk : Bool) (cartItems : List CartItem)
    (itemId newQuantity : ℤ) : ViewResult :=
  if newQuantity < 1 then ⟨cartItems, none, 0⟩
  else if updateOk then
    ⟨cartItems.map fun item =>
        if item.id = itemId then { item with quantity := newQuantity } else item,
      none, 1⟩
  else ⟨cartItems, some "Failed to update cart. Please try again.", 1⟩

end Cart

/-- `Math.round` on a (finite) value: round half toward positive infinity. -/
def jsRound (q : ℚ) : ℤ := ⌊q + 1 / 2⌋

/-- `calculateDiscount` of `Products.tsx` (lines 203–207) and
`ProductDetails.tsx` (lines 197–201), which are identical:
`if (!discountPrice) return null;` — so `undefined`, `null` and `0` all yield
`null` — else `Math.round(((price - discountPrice) / price) * 100)`.
There is no guard on `price`; `ℚ` division by zero is total, so the value of
the division branch at `price = 0` is only meaningful through `Option.isSome`
(the JavaScript code returns a number, `-Infinity` or `Infinity`, there). -/
def calculateDiscount (price : ℚ) (discountPrice : Option ℚ) : Option ℤ :=
  match discountPrice with
  | none => none
  | some d =>
      if d = 0 then none
      else some (jsRound ((price - d) / price * 100))

/-- View of a `Cart.tsx` item as a `CartContext.tsx` item (the two files load
the same `cart_items` join), for comparing the two subtotal implementations. -/
def toCtxItem (item : Cart.CartItem) : CartContext.CartItem :=
  { id := item.id, product_id := item.product_id, quantity := item.quantity,
    product := some item.product }

/-- The effective unit price in the words of the spec: "discount price if
present and non-null, else list price". -/
def specEffectivePrice (p : Product) : ℚ :=
  match p.discount_price with
  | some d => d
  | none => p.price

/-! ## Helper lemmas -/

theorem foldl_add_eq_sum {α M : Type*} [AddCommMonoid M] (f : α → M) :
    ∀ (l : List α) (a : M), l.foldl (fun s x => s + f x) a = a + (l.map f).sum
  | [], a => by simp
  | x :: l, a => by
    rw [List.foldl_cons, foldl_add_eq_sum f l (a + f x), List.map_cons, List.sum_cons,
      add_assoc]

/-- The contribution of one line to the `CartContext.tsx` total. -/
def ctxLineAmount (item : CartContext.CartItem) : ℚ :=
  match item.product with
  | none => 0
  | some p => CartContext.effectivePrice p * (item.quantity : ℚ)

theorem totalOf_eq_sum (items : List CartContext.CartItem) :
    CartContext.totalOf items = (items.map ctxLineAmount).sum := by
  have h : (fun (sum : ℚ) (item : CartContext.CartItem) =>
      match item.product with
      | none => sum
      | some p => sum + CartContext.effectivePrice p * (item.quantity : ℚ)) =
      fun sum item => sum + ctxLineAmount item := by
    funext s item
    cases hp : item.product <;> simp [ctxLineAmount, hp]
  unfold CartContext.totalOf
  rw [h, foldl_add_eq_sum, zero_add]

theorem calculateSubtotal_eq_sum (items : List Cart.CartItem) :
    Cart.calculateSubtotal items =
      (items.map fun item => Cart.getItemPrice item * (item.quantity : ℚ)).sum := by
  unfold Cart.calculateSubtotal
  rw [foldl_add_eq_sum, zero_add]

theorem cartCountOf_eq_sum (items : List CartContext.CartItem) :
    CartContext.cartCountOf items = (items.map fun item => item.quantity).sum := by
  unfold CartContext.cartCountOf
  rw [foldl_add_eq_sum, zero_add]

theorem getItemPrice_eq_effectivePrice (item : Cart.CartItem)
    (h : item.product.discount_price ≠ some 0) :
    Cart.getItemPrice item = CartContext.effectivePrice item.product := by
  unfold Cart.getItemPrice CartContext.effectivePrice
  cases hd : item.product.discount_price with
  | none => rfl
  | some d =>
      have hd0 : d ≠ 0 := fun h0 => h (by rw [hd, h0])
      simp [hd0]

/-! ## Claims -/

/-- C9: on the empty line list the derived aggregates are zero
(`total`, `cartCount` of `CartContext.tsx` and `calculateSubtotal` of
`Cart.tsx`), and `cartCount` equals the sum of the quantities of all lines. -/
theorem aggregates_empty_and_count_sum :
    CartContext.totalOf [] = 0 ∧ CartContext.cartCountOf [] = 0 ∧
    Cart.calculateSubtotal [] = 0 ∧
    ∀ items : List CartContext.CartItem,
      CartContext.cartCountOf items = (items.map fun item => item.quantity).sum :=
  ⟨rfl, rfl, rfl, cartCountOf_eq_sum⟩

/-- C4: in both implementations, asking for a quantity of 0 or a negative
quantity is a silent no-op: no remote write is attempted, no error is raised,
and the local cart state (hence every stored quantity) is unchanged. -/
theorem updateQuantity_nonpositive_noop
    (env : CartContext.RemoteEnv) (items : List CartContext.CartItem)
    (updateOk : Bool) (cartItems : List Cart.CartItem)
    (productId itemId quantity : ℤ) (h : quantity < 1) :
    CartContext.updateQuantity env items productId quantity = ⟨items, none, 0⟩ ∧
    Cart.updateQuantity updateOk cartItems itemId quantity = ⟨cartItems, none, 0⟩ := by
  constructor
  · unfold CartContext.updateQuantity
    rw [if_pos (Or.inr h)]
  · unfold Cart.updateQuantity
    rw [if_pos h]

/-- C4 witness: quantity 0 against a live environment leaves an empty cart
untouched with zero remote writes in both implementations. -/
theorem updateQuantity_nonpositive_noop_witness :
    (0 : ℤ) < 1 ∧
    CartContext.updateQuantity ⟨true, fun _ => none, true, true, true, 1⟩ [] 5 0 =
      ⟨[], none, 0⟩ ∧
    Cart.updateQuantity true [] 5 0 = ⟨[], none, 0⟩ := by
  refine ⟨by norm_num, ?_, ?_⟩
  · exact (updateQuantity_nonpositive_noop ⟨true, fun _ => none, true, true, true, 1⟩
      [] true [] 5 5 0 (by norm_num)).1
  · exact (updateQuantity_nonpositive_noop ⟨true, fun _ => none, true, true, true, 1⟩
      [] true [] 5 5 0 (by norm_num)).2

/-- C7 counterexample: the discount 0 is present, yet `calculateDiscount`
returns `null` instead of `round(((10 - 0) / 10) * 100) = 100`; and at list
price 0 with discount 5 the division branch *is* taken (the result is a
number, not `null`), so the claimed division-by-zero guard does not exist. -/
theorem calculateDiscount_cex :
    calculateDiscount 10 (some 0) = none ∧
    jsRound ((10 - 0) / 10 * 100) = 100 ∧
    (calculateDiscount 0 (some 5)).isSome = true := by
  refine ⟨by norm_num [calculateDiscount], by norm_num [jsRound], ?_⟩
  norm_num [calculateDiscount]

/-- C7 (amended): `calculateDiscount` returns `round(((list − discount) /
list) × 100)` when the discount is present, non-zero, and the list price is
non-zero; it returns no percentage when the discount is absent, null, or zero
(JavaScript falsiness); and there is no guard for a zero list price — with a
non-zero discount the division branch is taken even at list price 0. -/
theorem calculateDiscount_behaviour (price d : ℚ) :
    calculateDiscount price none = none ∧
    calculateDiscount price (some 0) = none ∧
    (d ≠ 0 → price ≠ 0 →
      calculateDiscount price (some d) = some (jsRound ((price - d) / price * 100))) ∧
    (calculateDiscount 0 (some 5)).isSome = true := by
  refine ⟨rfl, by norm_num [calculateDiscount], fun hd _ => by simp [calculateDiscount, hd], ?_⟩
  norm_num [calculateDiscount]

/-- C7 witness: the spec's example, list 10 and discount 8, yields 20. -/
theorem calculateDiscount_behaviour_witness :
    calculateDiscount 10 none = none ∧
    calculateDiscount 10 (some 0) = none ∧
    calculateDiscount 10 (some 8) = some (jsRound ((10 - 8) / 10 * 100)) ∧
    (calculateDiscount 0 (some 5)).isSome = true ∧
    calculateDiscount 10 (some 8) = some 20 := by
  have h := calculateDiscount_behaviour 10 8
  refine ⟨h.1, h.2.1, h.2.2.1 (by norm_num) (by norm_num), h.2.2.2, ?_⟩
  norm_num [calculateDiscount, jsRound]

/-- C1 counterexample: for a line whose product has list price 5 and a
present, non-null discount price of 0, `Cart.tsx`'s `getItemPrice` — the
effective unit price used by that page's pricing — is the list price 5, not
the discount price 0 demanded by the claim. -/
theorem getItemPrice_present_zero_discount_cex :
    Cart.getItemPrice ⟨1, "u", 1, 1, "t", ⟨1, "P", 5, some 0, "img", 10⟩⟩ = 5 ∧
    specEffectivePrice ⟨1, "P", 5, some 0, "img", 10⟩ = 0 ∧
    (5 : ℚ) ≠ 0 := by
  refine ⟨by simp [Cart.getItemPrice], rfl, by norm_num⟩

/-- C1 (amended): `CartContext.tsx`'s effective unit price is exactly the
spec's "discount if present and non-null, else list price"; `Cart.tsx`'s
`getItemPrice` agrees with it except when the discount is present and equal
to 0 (where it falls back to the list price); and the displayed line total is
the effective unit price times the quantity. -/
theorem effective_price_and_lineTotal (p : Product) (item : Cart.CartItem) :
    CartContext.effectivePrice p = specEffectivePrice p ∧
    (item.product.discount_price ≠ some 0 →
      Cart.getItemPrice item = specEffectivePrice item.product) ∧
    Cart.lineTotal item = Cart.getItemPrice item * (item.quantity : ℚ) :=
  ⟨rfl, fun h => getItemPrice_eq_effectivePrice item h, rfl⟩

/-- C1 witness: the spec's example — discount absent, price 50.00,
quantity 2 — gives a line total of 100.00. -/
theorem effective_price_and_lineTotal_witness :
    CartContext.effectivePrice ⟨7, "Widget", 50, none, "img", 9⟩ =
      specEffectivePrice ⟨7, "Widget", 50, none, "img", 9⟩ ∧
    Cart.getItemPrice ⟨1, "u", 7, 2, "t", ⟨7, "Widget", 50, none, "img", 9⟩⟩ =
      specEffectivePrice ⟨7, "Widget", 50, none, "img", 9⟩ ∧
    Cart.lineTotal ⟨1, "u", 7, 2, "t", ⟨7, "Widget", 50, none, "img", 9⟩⟩ =
      Cart.getItemPrice ⟨1, "u", 7, 2, "t", ⟨7, "Widget", 50, none, "img", 9⟩⟩
        * ((2 : ℤ) : ℚ) ∧
    Cart.lineTotal ⟨1, "u", 7, 2, "t", ⟨7, "Widget", 50, none, "img", 9⟩⟩ = 100 := by
  have h := effective_price_and_lineTotal ⟨7, "Widget", 50, none, "img", 9⟩
    ⟨1, "u", 7, 2, "t", ⟨7, "Widget", 50, none, "img", 9⟩⟩
  refine ⟨h.1, h.2.1 (by simp), h.2.2, ?_⟩
  norm_num [Cart.lineTotal, Cart.getItemPrice]

/-- C10 counterexample: on a single line with list price 5 and discount
price 0, `Cart.tsx`'s subtotal is 5 while `CartContext.tsx`'s total is 0 —
the two parallel subtotal implementations are not equivalent. -/
theorem subtotal_equivalence_cex :
    Cart.calculateSubtotal [⟨1, "u", 1, 1, "t", ⟨1, "P", 5, some 0, "img", 10⟩⟩] = 5 ∧
    CartContext.totalOf (List.map toCtxItem
      [⟨1, "u", 1, 1, "t", ⟨1, "P", 5, some 0, "img", 10⟩⟩]) = 0 ∧
    (5 : ℚ) ≠ 0 := by
  refine ⟨?_, ?_, by norm_num⟩
  · norm_num [Cart.calculateSubtotal, Cart.getItemPrice]
  · norm_num [CartContext.totalOf, toCtxItem, CartContext.effectivePrice]

/-- C10 (amended): the two subtotal implementations agree on every list of
lines (with their product snapshots present, as `Cart.tsx` requires) in which
no product carries a present discount price equal to 0. -/
theorem subtotal_implementations_agree (items : List Cart.CartItem)
    (h : ∀ item ∈ items, item.product.discount_price ≠ some 0) :
    CartContext.totalOf (items.map toCtxItem) = Cart.calculateSubtotal items := by
  rw [totalOf_eq_sum, calculateSubtotal_eq_sum, List.map_map]
  congr 1
  apply List.map_congr_left
  intro item hitem
  have hp := getItemPrice_eq_effectivePrice item (h item hitem)
  simp [Function.comp, ctxLineAmount, toCtxItem, hp]

/-- C10 witness: the two subtotals agree on a two-line cart with a non-zero
discount on one line and no discount on the other. -/
theorem subtotal_implementations_agree_witness :
    CartContext.totalOf (List.map toCtxItem
      [⟨1, "u", 1, 2, "t", ⟨1, "P", 10, some 2, "i", 3⟩⟩,
       ⟨2, "u", 4, 1, "t", ⟨4, "Q", 7, none, "i", 3⟩⟩]) =
    Cart.calculateSubtotal
      [⟨1, "u", 1, 2, "t", ⟨1, "P", 10, some 2, "i", 3⟩⟩,
       ⟨2, "u", 4, 1, "t", ⟨4, "Q", 7, none, "i", 3⟩⟩] := by
  apply subtotal_implementations_agree
  intro item hitem
  simp only [List.mem_cons, List.mem_singleton] at hitem
  rcases hitem with h1 | h2 | h3
  · rw [h1]; simp
  · rw [h2]; simp
  · cases h3

/-- C8: with a signed-in user and a working remote delete, removing the only
line of a one-line cart for that product yields the empty local cart without
error, and removing a product with no line in the cart leaves the local state
unchanged and raises no error. -/
theorem removeFromCart_single_and_absent
    (env : CartContext.RemoteEnv) (items : List CartContext.CartItem)
    (item : CartContext.CartItem) (productId : ℤ)
    (huser : env.userPresent = true) (hdel : env.deleteOk = true) :
    (item.product_id = productId →
      CartContext.removeFromCart env [item] productId = ⟨[], none, 1⟩) ∧
    ((∀ j ∈ items, j.product_id ≠ productId) →
      CartContext.removeFromCart env items productId = ⟨items, none, 1⟩) := by
  have huser' : ¬(env.userPresent = false) := by simp [huser]
  constructor
  · intro hpid
    unfold CartContext.removeFromCart
    rw [if_neg huser', if_pos hdel]
    simp [List.filter_cons, hpid]
  · intro habs
    unfold CartContext.removeFromCart
    rw [if_neg huser', if_pos hdel]
    have : items.filter (fun j => j.product_id != productId) = items := by
      rw [List.filter_eq_self]
      intro a ha
      simpa using habs a ha
    rw [this]

/-- C8 witness: a one-line cart for product 3 becomes empty, and removing
product 9 from that same cart changes nothing and raises no error. -/
theorem removeFromCart_single_and_absent_witness :
    CartContext.removeFromCart ⟨true, fun _ => none, true, true, true, 1⟩
      [⟨5, 3, 2, none⟩] 3 = ⟨[], none, 1⟩ ∧
    CartContext.removeFromCart ⟨true, fun _ => none, true, true, true, 1⟩
      [⟨5, 3, 2, none⟩] 9 = ⟨[⟨5, 3, 2, none⟩], none, 1⟩ := by
  constructor
  · exact (removeFromCart_single_and_absent ⟨true, fun _ => none, true, true, true, 1⟩
      [] ⟨5, 3, 2, none⟩ 3 rfl rfl).1 rfl
  · exact (removeFromCart_single_and_absent ⟨true, fun _ => none, true, true, true, 1⟩
      [⟨5, 3, 2, none⟩] ⟨5, 3, 2, none⟩ 9 rfl rfl).2 (by
        intro j hj
        rw [List.mem_singleton] at hj
        rw [hj]
        norm_num)

/-- The one-line-per-product invariant: no two cart lines reference the same
product id. -/
def uniqueProducts (items : List CartContext.CartItem) : Prop :=
  (items.map fun item => item.product_id).Nodup

/-- C6: every cart-store operation preserves the invariant that at most one
line references each product id; in particular `addToCart` only appends a new
line when `find?` has established that no line for the product exists. -/
theorem unique_product_per_line_preserved
    (env : CartContext.RemoteEnv) (items : List CartContext.CartItem)
    (productId quantity : ℤ) (hinv : uniqueProducts items) :
    uniqueProducts (CartContext.addToCart env items productId quantity).items ∧
    uniqueProducts (CartContext.updateQuantity env items productId quantity).items ∧
    uniqueProducts (CartContext.removeFromCart env items productId).items ∧
    uniqueProducts (CartContext.clearCart env items).items := by
  have hupdate : ∀ q : ℤ,
      uniqueProducts (CartContext.updateQuantity env items productId q).items := by
    intro q
    unfold CartContext.updateQuantity
    split
    · exact hinv
    · split
      · unfold uniqueProducts at hinv ⊢
        rw [List.map_map]
        have heq : ∀ a ∈ items, ((fun item => item.product_id) ∘
            (fun item : CartContext.CartItem =>
              if item.product_id = productId
                then { item with quantity := q } else item)) a = a.product_id := by
          intro a _
          by_cases ha : a.product_id = productId
          · simp [Function.comp_apply, ha]
          · simp [Function.comp_apply, ha]
        rw [List.map_congr_left heq]
        exact hinv
      · exact hinv
  refine ⟨?_, hupdate quantity, ?_, ?_⟩
  · unfold CartContext.addToCart
    split
    · exact hinv
    · split
      · exact hupdate _
      · rename_i hfind
        split
        · exact hinv
        · split
          · have habs : ∀ x ∈ items, x.product_id ≠ productId := by
              intro x hx
              have hne := List.find?_eq_none.mp hfind x hx
              simpa using hne
            unfold uniqueProducts
            rw [List.map_append, List.nodup_append]
            refine ⟨hinv, by simp, ?_⟩
            intro a ha
            rw [List.mem_map] at ha
            obtain ⟨b, hb, rfl⟩ := ha
            simp [habs b hb]
          · exact hinv
  · unfold CartContext.removeFromCart
    split
    · exact hinv
    · split
      · exact List.Nodup.sublist
          (List.Sublist.map _ (List.filter_sublist items)) hinv
      · exact hinv
  · unfold CartContext.clearCart
    split
    · exact hinv
    · split
      · simp [uniqueProducts]
      · exact hinv

/-- C6 witness: the invariant holds after each operation on a concrete
two-line cart. -/
theorem unique_product_per_line_preserved_witness :
    uniqueProducts (CartContext.addToCart
      ⟨true, fun _ => none, true, true, true, 9⟩ [⟨1, 3, 2, none⟩, ⟨2, 4, 1, none⟩]
      4 1).items ∧
    uniqueProducts (CartContext.updateQuantity
      ⟨true, fun _ => none, true, true, true, 9⟩ [⟨1, 3, 2, none⟩, ⟨2, 4, 1, none⟩]
      4 1).items ∧
    uniqueProducts (CartContext.removeFromCart
      ⟨true, fun _ => none, true, true, true, 9⟩ [⟨1, 3, 2, none⟩, ⟨2, 4, 1, none⟩]
      4).items ∧
    uniqueProducts (CartContext.clearCart
      ⟨true, fun _ => none, true, true, true, 9⟩ [⟨1, 3, 2, none⟩, ⟨2, 4, 1, none⟩]).items :=
  unique_product_per_line_preserved ⟨true, fun _ => none, true, true, true, 9⟩
    [⟨1, 3, 2, none⟩, ⟨2, 4, 1, none⟩] 4 1 (by simp [uniqueProducts])

/-- The quantity invariant of the spec: every cart line has quantity ≥ 1. -/
def qtyInvariant (items : List CartContext.CartItem) : Prop :=
  ∀ item ∈ items, 1 ≤ item.quantity

/-- C5 counterexample: starting from the empty cart (which trivially satisfies
the invariant), `addToCart` with supplied quantity 0 — the fresh-insert path
performs no quantity validation — mutates state to a cart whose single line
has quantity 0, violating the invariant. -/
theorem addToCart_zero_quantity_cex :
    (CartContext.addToCart
        ⟨true, fun j => if j = 1 then some ⟨1, "A", 5, none, "img", 3⟩ else none,
          true, true, true, 42⟩
        [] 1 0).items = [⟨42, 1, 0, some ⟨1, "A", 5, none, "img", 3⟩⟩] ∧
    ¬ qtyInvariant [⟨42, 1, 0, some ⟨1, "A", 5, none, "img", 3⟩⟩] := by
  constructor
  · simp [CartContext.addToCart]
  · intro h
    have := h ⟨42, 1, 0, some ⟨1, "A", 5, none, "img", 3⟩⟩ (List.mem_singleton_self _)
    norm_num at this

/-- C5 (amended): starting from a state where every line has quantity ≥ 1,
`setQuantity` (with any requested quantity), `remove` and `clear` preserve the
invariant, and so does `add` whenever the supplied quantity is ≥ 1 or a line
for the product already exists (the merge path); only a fresh insert with
quantity < 1 — which the code does not validate — can break it. -/
theorem quantity_invariant_preserved
    (env : CartContext.RemoteEnv) (items : List CartContext.CartItem)
    (productId quantity : ℤ) (hinv : qtyInvariant items) :
    qtyInvariant (CartContext.updateQuantity env items productId quantity).items ∧
    qtyInvariant (CartContext.removeFromCart env items productId).items ∧
    qtyInvariant (CartContext.clearCart env items).items ∧
    ((1 ≤ quantity ∨ ∃ item ∈ items, item.product_id = productId) →
      qtyInvariant (CartContext.addToCart env items productId quantity).items) := by
  have hupdate : ∀ q : ℤ,
      qtyInvariant (CartContext.updateQuantity env items productId q).items := by
    intro q
    unfold CartContext.updateQuantity
    split
    · exact hinv
    · rename_i hcond
      push_neg at hcond
      split
      · intro item hitem
        rw [List.mem_map] at hitem
        obtain ⟨b, hb, rfl⟩ := hitem
        by_cases hb' : b.product_id = productId
        · rw [if_pos hb']
          exact hcond.2
        · rw [if_neg hb']
          exact hinv b hb
      · exact hinv
  refine ⟨hupdate quantity, ?_, ?_, ?_⟩
  · unfold CartContext.removeFromCart
    split
    · exact hinv
    · split
      · intro item hitem
        exact hinv item (List.mem_of_mem_filter hitem)
      · exact hinv
  · unfold CartContext.clearCart
    split
    · exact hinv
    · split
      · intro item hitem
        cases hitem
      · exact hinv
  · intro hq
    unfold CartContext.addToCart
    split
    · exact hinv
    · split
      · exact hupdate _
      · rename_i hfind
        split
        · exact hinv
        · split
          · have h1q : 1 ≤ quantity := by
              rcases hq with h | ⟨item, hitem, hpid⟩
              · exact h
              · have hne := List.find?_eq_none.mp hfind item hitem
                rw [hpid] at hne
                simp at hne
            intro item hitem
            rw [List.mem_append] at hitem
            rcases hitem with h | h
            · exact hinv item h
            · rw [List.mem_singleton] at h
              rw [h]
              exact h1q
          · exact hinv

/-- C5 witness: the invariant survives each operation (including a merge add
with quantity 0, and a fresh add with quantity 1) on a concrete cart. -/
theorem quantity_invariant_preserved_witness :
    qtyInvariant (CartContext.updateQuantity
      ⟨true, fun _ => none, true, true, true, 9⟩ [⟨1, 3, 2, none⟩] 3 5).items ∧
    qtyInvariant (CartContext.removeFromCart
      ⟨true, fun _ => none, true, true, true, 9⟩ [⟨1, 3, 2, none⟩] 3).items ∧
    qtyInvariant (CartContext.clearCart
      ⟨true, fun _ => none, true, true, true, 9⟩ [⟨1, 3, 2, none⟩]).items ∧
    qtyInvariant (CartContext.addToCart
      ⟨true, fun _ => none, true, true, true, 9⟩ [⟨1, 3, 2, none⟩] 3 0).items := by
  have h := quantity_invariant_preserved ⟨true, fun _ => none, true, true, true, 9⟩
    [⟨1, 3, 2, none⟩] 3 0 (by
      intro item hitem
      rw [List.mem_singleton] at hitem
      rw [hitem]
      norm_num)
  have h5 := quantity_invariant_preserved ⟨true, fun _ => none, true, true, true, 9⟩
    [⟨1, 3, 2, none⟩] 3 5 (by
      intro item hitem
      rw [List.mem_singleton] at hitem
      rw [hitem]
      norm_num)
  exact ⟨h5.1, h.2.1, h.2.2.1, h.2.2.2 (Or.inr ⟨⟨1, 3, 2, none⟩,
    List.mem_singleton_self _, rfl⟩)⟩

theorem addToCart_items_of_error (env : CartContext.RemoteEnv)
    (items : List CartContext.CartItem) (productId quantity : ℤ) :
    (CartContext.addToCart env items productId quantity).error.isSome →
    (CartContext.addToCart env items productId quantity).items = items := by
  unfold CartContext.addToCart CartContext.updateQuantity
  split
  · exact fun _ => rfl
  · split
    · split
      · exact fun _ => rfl
      · split
        · intro h; simp at h
        · exact fun _ => rfl
    · split
      · exact fun _ => rfl
      · split
        · intro h; simp at h
        · exact fun _ => rfl

/-- C3: whenever `addToCart` surfaces an error, the local cart state is
exactly what it was before the call (no partial mutation), and in both
remote-write-failure scenarios — a failed insert on the fresh path and a
failed update on the merge path — the network error is surfaced to the
caller (re-thrown), not swallowed. -/
theorem addToCart_failure_atomic
    (env : CartContext.RemoteEnv) (items : List CartContext.CartItem)
    (productId quantity : ℤ) :
    ((CartContext.addToCart env items productId quantity).error.isSome →
      (CartContext.addToCart env items productId quantity).items = items) ∧
    (env.userPresent = true → (∀ item ∈ items, item.product_id ≠ productId) →
      (env.fetchProduct productId).isSome = true → env.insertOk = false →
      CartContext.addToCart env items productId quantity =
        ⟨items, some .network, 1⟩) ∧
    (∀ existingItem, env.userPresent = true →
      items.find? (fun item => item.product_id == productId) = some existingItem →
      1 ≤ existingItem.quantity + quantity → env.updateOk = false →
      CartContext.addToCart env items productId quantity =
        ⟨items, some .network, 1⟩) := by
  refine ⟨addToCart_items_of_error env items productId quantity, ?_, ?_⟩
  · intro huser habs hfetch hins
    have hfind : items.find? (fun item => item.product_id == productId) = none := by
      rw [List.find?_eq_none]
      intro x hx
      simpa using habs x hx
    obtain ⟨p, hp⟩ := Option.isSome_iff_exists.mp hfetch
    unfold CartContext.addToCart
    rw [if_neg (by simp [huser])]
    simp only [hfind, hp]
    rw [if_neg (by simp [hins])]
  · intro existingItem huser hfind hq hupd
    unfold CartContext.addToCart
    rw [if_neg (by simp [huser])]
    simp only [hfind]
    unfold CartContext.updateQuantity
    rw [if_neg (by
        rintro (h | h)
        · rw [huser] at h; simp at h
        · omega),
      if_neg (by simp [hupd])]

/-- C3 witness: a failed insert on a fresh add and a failed update on a merge
add both leave the cart as it was and surface the network error. -/
theorem addToCart_failure_atomic_witness :
    CartContext.addToCart
      ⟨true, fun j => if j = 1 then some ⟨1, "A", 5, none, "i", 3⟩ else none,
        false, true, true, 9⟩ [] 1 2 = ⟨[], some .network, 1⟩ ∧
    CartContext.addToCart ⟨true, fun _ => none, true, false, true, 9⟩
      [⟨1, 1, 2, none⟩] 1 1 = ⟨[⟨1, 1, 2, none⟩], some .network, 1⟩ := by
  constructor
  · exact (addToCart_failure_atomic
      ⟨true, fun j => if j = 1 then some ⟨1, "A", 5, none, "i", 3⟩ else none,
        false, true, true, 9⟩ [] 1 2).2.1 rfl
      (fun item h => absurd h (List.not_mem_nil item)) (by simp) rfl
  · exact (addToCart_failure_atomic ⟨true, fun _ => none, true, false, true, 9⟩
      [⟨1, 1, 2, none⟩] 1 1).2.2 ⟨1, 1, 2, none⟩ rfl (by simp) (by norm_num) rfl

theorem filter_update_append (productId q : ℤ) (newItem : CartContext.CartItem)
    (hpid : newItem.product_id = productId) :
    ∀ items : List CartContext.CartItem,
      (∀ item ∈ items, item.product_id ≠ productId) →
      ((items ++ [newItem]).map
          (fun item => if item.product_id = productId
            then { item with quantity := q } else item)).filter
        (fun item => item.product_id == productId) = [{ newItem with quantity := q }]
  | [], _ => by simp [hpid]
  | x :: items, h => by
      have hx : x.product_id ≠ productId := h x (List.mem_cons_self x items)
      have hrest := filter_update_append productId q newItem hpid items
        (fun item hmem => h item (List.mem_cons_of_mem x hmem))
      simp only [List.cons_append, List.map_cons]
      rw [if_neg hx, List.filter_cons, if_neg (by simpa using hx)]
      exact hrest

/-- C2: starting from a cart with no line for the product, two sequential
adds with quantities q1, q2 ≥ 1 (the remote collaborator healthy throughout)
leave exactly one line for that product, with quantity q1 + q2; the second
add is literally the quantity-update path (it delegates to `updateQuantity`)
rather than a second insert. -/
theorem addToCart_twice_merges
    (env : CartContext.RemoteEnv) (items : List CartContext.CartItem)
    (productId q1 q2 : ℤ) (p : Product)
    (huser : env.userPresent = true) (hins : env.insertOk = true)
    (hupd : env.updateOk = true)
    (hfetch : env.fetchProduct productId = some p)
    (hq1 : 1 ≤ q1) (hq2 : 1 ≤ q2)
    (habsent : ∀ item ∈ items, item.product_id ≠ productId) :
    CartContext.addToCart env (CartContext.addToCart env items productId q1).items
        productId q2 =
      CartContext.updateQuantity env
        (CartContext.addToCart env items productId q1).items productId (q1 + q2) ∧
    (CartContext.addToCart env (CartContext.addToCart env items productId q1).items
        productId q2).items.filter (fun item => item.product_id == productId) =
      [⟨env.newRowId, productId, q1 + q2, some p⟩] := by
  have huser' : ¬(env.userPresent = false) := by simp [huser]
  have hfind : items.find? (fun item => item.product_id == productId) = none := by
    rw [List.find?_eq_none]
    intro x hx
    simpa using habsent x hx
  have h1 : (CartContext.addToCart env items productId q1).items =
      items ++ [⟨env.newRowId, productId, q1, some p⟩] := by
    unfold CartContext.addToCart
    rw [if_neg huser']
    simp only [hfind, hfetch]
    rw [if_pos hins]
  rw [h1]
  have hfind2 : (items ++
        [(⟨env.newRowId, productId, q1, some p⟩ : CartContext.CartItem)]).find?
      (fun item => item.product_id == productId) =
      some ⟨env.newRowId, productId, q1, some p⟩ := by
    rw [List.find?_append, hfind]
    simp
  have hdeleg : CartContext.addToCart env
      (items ++ [⟨env.newRowId, productId, q1, some p⟩]) productId q2 =
      CartContext.updateQuantity env
        (items ++ [⟨env.newRowId, productId, q1, some p⟩]) productId (q1 + q2) := by
    unfold CartContext.addToCart
    rw [if_neg huser']
    simp only [hfind2]
  refine ⟨hdeleg, ?_⟩
  rw [hdeleg]
  unfold CartContext.updateQuantity
  rw [if_neg (by
      rintro (h | h)
      · rw [huser] at h; simp at h
      · omega),
    if_pos hupd]
  exact filter_update_append productId (q1 + q2) ⟨env.newRowId, productId, q1, some p⟩
    rfl items habsent

/-- C2 witness: adding product 2 with quantity 1 and then quantity 3 to an
initially empty cart leaves one line with quantity 4 via the update path. -/
theorem addToCart_twice_merges_witness :
    CartContext.addToCart
        ⟨true, fun j => if j = 2 then some ⟨2, "B", 4, none, "i", 8⟩ else none,
          true, true, true, 11⟩
        (CartContext.addToCart
          ⟨true, fun j => if j = 2 then some ⟨2, "B", 4, none, "i", 8⟩ else none,
            true, true, true, 11⟩ [] 2 1).items 2 3 =
      CartContext.updateQuantity
        ⟨true, fun j => if j = 2 then some ⟨2, "B", 4, none, "i", 8⟩ else none,
          true, true, true, 11⟩
        (CartContext.addToCart
          ⟨true, fun j => if j = 2 then some ⟨2, "B", 4, none, "i", 8⟩ else none,
            true, true, true, 11⟩ [] 2 1).items 2 (1 + 3) ∧
    (CartContext.addToCart
        ⟨true, fun j => if j = 2 then some ⟨2, "B", 4, none, "i", 8⟩ else none,
          true, true, true, 11⟩
        (CartContext.addToCart
          ⟨true, fun j => if j = 2 then some ⟨2, "B", 4, none, "i", 8⟩ else none,
            true, true, true, 11⟩ [] 2 1).items 2 3).items.filter
      (fun item => item.product_id == 2) = [⟨11, 2, 1 + 3, some ⟨2, "B", 4, none, "i", 8⟩⟩] :=
  addToCart_twice_merges
    ⟨true, fun j => if j = 2 then some ⟨2, "B", 4, none, "i", 8⟩ else none,
      true, true, true, 11⟩
    [] 2 1 3 ⟨2, "B", 4, none, "i", 8⟩ rfl rfl rfl (by simp) (by norm_num)
    (by norm_num) (fun item h => absurd h (List.not_mem_nil item))
